import Mathlib

/-!
Shallow embedding of `src/app.py` (System Prompt Influence Analyzer, a
Streamlit app).  The app consists of one class,
`SystemPromptInfluenceAnalyzer`, whose method
`analyze_system_prompt_influence` builds a fixed prompt template around the
two input texts and issues one call to the Anthropic messages API, and a
`main` function implementing the form flow (validation of the two uploaded
files and of the API key, then the call and the display of the result).

External effects are modelled as oracles passed in explicitly:
* the Anthropic client call is a function `Request → CallOutcome`
  (`CallOutcome.exn` models an exception raised by the call);
* UTF-8 decoding of the uploaded bytes is a function
  `FileBytes → Except String String` (`Except.error` models a
  `UnicodeDecodeError`, carrying its message).

Streamlit display calls (`st.warning`, `st.error`, `st.info`,
`st.text_area`, `st.write`) are modelled as fields of the output records.
-/

namespace PromptDebugger

/-- One element of the `messages` list sent to the API (app.py lines 72-77). -/
structure MessageParam where
  role : String
  content : String
  deriving DecidableEq, Repr

/-- The request sent by `client.messages.create` (app.py lines 69-78). -/
structure Request where
  model : String
  max_tokens : Nat
  messages : List MessageParam
  deriving DecidableEq, Repr

/-- One content block of a service response (`response.content[i]`). -/
structure ContentBlock where
  text : String
  deriving DecidableEq, Repr

/-- The response object of the messages API: a list of content blocks and
the model identifier the service reports (`response.model`). -/
structure ServiceResponse where
  content : List ContentBlock
  model : String
  deriving DecidableEq, Repr

/-- Outcome of the network call: a response, or an exception carrying a
message (any transport, auth or service failure). -/
inductive CallOutcome where
  | ok (resp : ServiceResponse)
  | exn (msg : String)
  deriving DecidableEq, Repr

/-- The external service, abstracted as a deterministic oracle from the
request to the outcome of the single blocking call. -/
def ServiceOracle : Type := Request → CallOutcome

/-- The dict returned on success by `analyze_system_prompt_influence`
(app.py lines 83-86): exactly the keys `raw_analysis` and `model_used`. -/
structure AnalysisResult where
  raw_analysis : String
  model_used : String
  deriving DecidableEq, Repr

/-- Observable outcome of one invocation of
`analyze_system_prompt_influence`: the returned value (`none` models
Python `None`), the `st.error` messages emitted, and the network requests
issued, in order. -/
structure AnalyzeOutput where
  result : Option AnalysisResult
  errors : List String
  requests : List Request
  deriving DecidableEq, Repr

/-- Text of the f-string template (app.py lines 35-65) before the
`{system_prompt}` substitution point.  The template literal starts with a
newline after the opening quotes and indents every line by eight spaces. -/
def tplA : String :=
  "\n        You are an expert in system prompt interpretability and discourse analysis.\n\n        Task: Carefully analyze the following system prompt and conversation log.\n        Identify which specific segments of the system prompt directly influenced\n        the agent\x27s responses.\n\n        System Prompt:\n        "

/-- Text of the template between the `{system_prompt}` and
`{conversation_log}` substitution points. -/
def tplB : String :=
  "\n\n        Conversation Log:\n        "

/-- Text of the template after the `{conversation_log}` substitution
point, up to and including the spaces before the closing quotes. -/
def tplC : String :=
  "\n\n        For EACH agent response, provide:\n        1. Relevant System Prompt Segments (quote exact text)\n        2. Influence Score (0-1.0)\n        3. Specific Evidence of Influence\n        4. Explanation of Semantic Connection\n\n        Response Format:\n        ```\n        Response 1:\n        - Relevant Segments: [list of segments]\n        - Influence Score: X.XX\n        - Evidence: [direct quote mapping]\n        - Explanation: [semantic connection details]\n        ```\n\n        Provide a comprehensive, analytical breakdown that shows\n        how the system prompt guides the agent\x27s communication strategy.\n        "

/-- The `analysis_prompt` f-string (app.py lines 35-65): the fixed
template with both inputs substituted verbatim. -/
def analysis_prompt (system_prompt conversation_log : String) : String :=
  tplA ++ system_prompt ++ tplB ++ conversation_log ++ tplC

/-- The request built by `client.messages.create(...)` (app.py lines
69-78): fixed model string, `max_tokens=4000`, and a single user-role
message holding the full templated prompt. -/
def buildRequest (system_prompt conversation_log : String) : Request :=
  { model := "claude-3-opus-20240229"
    max_tokens := 4000
    messages := [{ role := "user", content := analysis_prompt system_prompt conversation_log }] }

/-- Message of the `IndexError` Python raises on `response.content[0]`
when the content list is empty; it is caught by the same `except` clause. -/
def indexErrorText : String := "list index out of range"

/-- `SystemPromptInfluenceAnalyzer.analyze_system_prompt_influence`
(app.py lines 17-90).  The body builds the prompt, issues the call inside
a `try`, extracts `response.content[0].text` and `response.model` into a
dict; the `except Exception` clause catches any exception `e` (including
the `IndexError` from an empty content list), calls
`st.error(f"Error in analysis: \x7be\x7d")` and returns `None`.  The
`verbose` parameter is accepted but never used by the body. -/
def analyze_system_prompt_influence (oracle : ServiceOracle)
    (system_prompt conversation_log : String) (verbose : Bool) : AnalyzeOutput :=
  match oracle (buildRequest system_prompt conversation_log) with
  | CallOutcome.exn e =>
      { result := none
        errors := ["Error in analysis: " ++ e]
        requests := [buildRequest system_prompt conversation_log] }
  | CallOutcome.ok resp =>
      match resp.content with
      | [] =>
          { result := none
            errors := ["Error in analysis: " ++ indexErrorText]
            requests := [buildRequest system_prompt conversation_log] }
      | blk :: _ =>
          { result := some { raw_analysis := blk.text, model_used := resp.model }
            errors := []
            requests := [buildRequest system_prompt conversation_log] }

/-- Raw bytes of an uploaded file (`file.getvalue()`). -/
def FileBytes : Type := List Nat

deriving instance DecidableEq, Repr for FileBytes

/-- UTF-8 decoding (the decode call with encoding utf-8 at app.py lines
113-114), abstracted as an oracle:
`Except.error e` models a raised `UnicodeDecodeError` with message `e`. -/
def DecodeOracle : Type := FileBytes → Except String String

/-- The resolution `api_key or os.getenv(ANTHROPIC_API_KEY)` performed
by `SystemPromptInfluenceAnalyzer.__init__` (app.py lines 13-15): a falsy
(absent or empty) explicit key falls back to the environment variable. -/
def resolveApiKey (api_key : Option String) (env_key : Option String) : Option String :=
  match api_key with
  | none => env_key
  | some k => if k = "" then env_key else some k

/-- Inputs visible to `main` on one click: the sidebar key field (a text
input, `""` when left blank), the environment variable, and the two file
uploaders (`none` when no file is uploaded). -/
structure UIState where
  api_key : String
  env_api_key : Option String
  system_prompt_file : Option FileBytes
  conversation_log_file : Option FileBytes
  deriving DecidableEq, Repr

/-- Observable outcome of one run of the button handler in `main`: the
`st.warning` / `st.error` / `st.info` messages, the network requests
issued, the key the analyzer client would be constructed with, and the
contents of the results text area and of the model line (`none` when not
rendered). -/
structure MainOutput where
  warnings : List String
  errors : List String
  infos : List String
  requests : List Request
  client_key : Option String
  displayed_analysis : Option String
  displayed_model : Option String
  deriving DecidableEq, Repr

/-- Output of a run in which nothing beyond the static page is rendered. -/
def noOutput : MainOutput :=
  { warnings := [], errors := [], infos := [], requests := []
    client_key := none, displayed_analysis := none, displayed_model := none }

/-- Warning shown when an upload is missing (app.py line 108). -/
def uploadWarning : String :=
  "Please upload both system prompt and conversation log files."

/-- Warning shown when the key field is blank (app.py line 121). -/
def apiKeyWarning : String :=
  "Please enter your Anthropic API Key in the sidebar."

/-- Info message shown before the call (app.py line 130). -/
def analyzingInfo : String :=
  "Analyzing system prompt influence... This may take a few moments."

/-- The call-and-display tail of the button handler (app.py lines
125-145): the `st.info` message, the analyzer invocation outcome, and —
when the returned dict is truthy — the text area filled with
`raw_analysis` (line 141) and the model line filled with `model_used`
(line 145); on `None` nothing is rendered. -/
def displayStep (key : Option String) (out : AnalyzeOutput) : MainOutput :=
  match out.result with
  | some r =>
      { warnings := [], errors := out.errors, infos := [analyzingInfo]
        requests := out.requests, client_key := key
        displayed_analysis := some r.raw_analysis
        displayed_model := some r.model_used }
  | none =>
      { warnings := [], errors := out.errors, infos := [analyzingInfo]
        requests := out.requests, client_key := key
        displayed_analysis := none, displayed_model := none }

/-- `main` (app.py lines 92-161), restricted to the button handler
(lines 105-147); `clicked = false` models a rerun without a click.  The
order of the checks follows the source exactly: file presence (lines
107-109), decoding of both files in one `try` (lines 112-117), key field
(lines 119-121), then analyzer construction and the call-and-display tail
(lines 125-145, `displayStep`).  The analyzer is constructed with the
field value, whose resolution against the environment is `resolveApiKey`;
the call passes no `verbose` argument, so the default `True` applies. -/
def main (decode : DecodeOracle) (oracle : ServiceOracle)
    (ui : UIState) (clicked : Bool) : MainOutput :=
  if !clicked then noOutput
  else
    match ui.system_prompt_file, ui.conversation_log_file with
    | none, _ => { noOutput with warnings := [uploadWarning] }
    | some _, none => { noOutput with warnings := [uploadWarning] }
    | some fb1, some fb2 =>
      match decode fb1 with
      | Except.error e => { noOutput with errors := ["Error reading files: " ++ e] }
      | Except.ok system_prompt =>
        match decode fb2 with
        | Except.error e => { noOutput with errors := ["Error reading files: " ++ e] }
        | Except.ok conversation_log =>
          if ui.api_key = "" then { noOutput with warnings := [apiKeyWarning] }
          else
            displayStep (resolveApiKey (some ui.api_key) ui.env_api_key)
              (analyze_system_prompt_influence oracle system_prompt conversation_log true)

/-- Two consecutive clicks of the analyze button with identical inputs.
`main` constructs a fresh `SystemPromptInfluenceAnalyzer` on every click
(app.py line 127) and holds no state between runs, so the second run is
the same pure function of its own inputs; the two runs may see different
service behaviour (`o1`, `o2`) since the external model is
non-deterministic. -/
def mainTwice (decode : DecodeOracle) (o1 o2 : ServiceOracle)
    (ui : UIState) : MainOutput × MainOutput :=
  (main decode o1 ui true, main decode o2 ui true)

/-! ### Concrete scenario inputs used by witnesses and counterexamples -/

/-- Decode oracle that decodes any byte payload to the string `s`
(e.g. `decodeAll ""` is UTF-8 decoding restricted to empty files). -/
def decodeAll (s : String) : DecodeOracle := fun _ => Except.ok s

/-- Service oracle that always answers with one content block "ana" and
model identifier "m1". -/
def okOracle1 : ServiceOracle :=
  fun _ => CallOutcome.ok { content := [{ text := "ana" }], model := "m1" }

/-- Form state: key "k", no environment key, two uploaded empty files. -/
def uiEmptyFiles : UIState :=
  { api_key := "k", env_api_key := none
    system_prompt_file := some [], conversation_log_file := some [] }

/-- Form state: blank key field, environment key "sk-env", two uploads. -/
def uiBlankKeyEnv : UIState :=
  { api_key := "", env_api_key := some "sk-env"
    system_prompt_file := some [], conversation_log_file := some [] }

/-- Form state: key "k", system-prompt upload missing. -/
def uiMissingUpload : UIState :=
  { api_key := "k", env_api_key := none
    system_prompt_file := none, conversation_log_file := some [] }

/-! ## Helper lemmas -/

/-- The Analysis Requester issues exactly one request, the fixed one,
whatever the service does. -/
theorem analyze_requests_eq (oracle : ServiceOracle) (sp cl : String) (v : Bool) :
    (analyze_system_prompt_influence oracle sp cl v).requests = [buildRequest sp cl] := by
  unfold analyze_system_prompt_influence
  cases oracle (buildRequest sp cl) with
  | exn e => rfl
  | ok resp =>
    obtain ⟨cont, m⟩ := resp
    cases cont with
    | nil => rfl
    | cons blk rest => rfl

/-- On the fully validated path, `main` is the call-and-display tail
applied to the analyzer invocation. -/
theorem main_call_eq (decode : DecodeOracle) (oracle : ServiceOracle)
    (fb1 fb2 : FileBytes) (sp cl key : String) (env : Option String)
    (h1 : decode fb1 = Except.ok sp) (h2 : decode fb2 = Except.ok cl)
    (hk : ¬ key = "") :
    main decode oracle (UIState.mk key env (some fb1) (some fb2)) true =
      displayStep (resolveApiKey (some key) env)
        (analyze_system_prompt_influence oracle sp cl true) := by
  simp [main, h1, h2, hk]

/-- The display step passes the request trace through unchanged. -/
theorem displayStep_requests (k : Option String) (out : AnalyzeOutput) :
    (displayStep k out).requests = out.requests := by
  cases hr : out.result with
  | none => simp [displayStep, hr]
  | some r => simp [displayStep, hr]

/-- A successful call with a non-empty content list yields exactly the
two-field dict built from the first block and the reported model. -/
theorem analyze_ok_cons (oracle : ServiceOracle) (sp cl : String) (v : Bool)
    (blk : ContentBlock) (rest : List ContentBlock) (m : String)
    (ho : oracle (buildRequest sp cl) =
      CallOutcome.ok (ServiceResponse.mk (blk :: rest) m)) :
    analyze_system_prompt_influence oracle sp cl v =
      AnalyzeOutput.mk (some (AnalysisResult.mk blk.text m)) []
        [buildRequest sp cl] := by
  unfold analyze_system_prompt_influence
  rw [ho]

/-! ## Theorems -/

/-- C1: for every triple of non-empty strings (systemPrompt,
conversationLog, credential), the prompt string constructed by the
Analysis Requester contains both systemPrompt and conversationLog as
verbatim, unmodified substrings. -/
theorem c1_prompt_embeds_inputs_verbatim
    (system_prompt conversation_log credential : String)
    (hs : system_prompt ≠ "") (hc : conversation_log ≠ "")
    (hk : credential ≠ "") :
    ∃ a b c : String,
      analysis_prompt system_prompt conversation_log =
        a ++ system_prompt ++ b ++ conversation_log ++ c :=
  ⟨tplA, tplB, tplC, rfl⟩

/-- Witness for C1 at the concrete triple ("x", "y", "key"). -/
theorem c1_witness :
    ("x" : String) ≠ "" ∧ ("y" : String) ≠ "" ∧ ("key" : String) ≠ "" ∧
      ∃ a b c : String, analysis_prompt "x" "y" = a ++ "x" ++ b ++ "y" ++ c :=
  ⟨by decide, by decide, by decide,
    c1_prompt_embeds_inputs_verbatim "x" "y" "key"
      (by decide) (by decide) (by decide)⟩

/-- C9: the `verbose` parameter of `analyze_system_prompt_influence` has
no effect on behaviour: any two verbosity settings give identical
requests, messages and result. -/
theorem c9_verbose_has_no_effect (oracle : ServiceOracle)
    (system_prompt conversation_log : String) (v v' : Bool) :
    analyze_system_prompt_influence oracle system_prompt conversation_log v =
      analyze_system_prompt_influence oracle system_prompt conversation_log v' :=
  rfl

/-- C7: every request issued by the Analysis Requester carries the fixed
model string "claude-3-opus-20240229", `max_tokens = 4000`, and exactly
one user-role message holding the full templated prompt, for any inputs
and any service behaviour. -/
theorem c7_fixed_request_shape (oracle : ServiceOracle)
    (system_prompt conversation_log : String) (v : Bool) :
    (analyze_system_prompt_influence oracle system_prompt conversation_log v).requests =
      [{ model := "claude-3-opus-20240229"
         max_tokens := 4000
         messages := [{ role := "user"
                        content := analysis_prompt system_prompt conversation_log }] }] := by
  unfold analyze_system_prompt_influence
  cases oracle (buildRequest system_prompt conversation_log) with
  | exn e => rfl
  | ok resp =>
    obtain ⟨cont, m⟩ := resp
    cases cont with
    | nil => rfl
    | cons blk rest => rfl

/-- C10: `analyze_system_prompt_influence` never propagates an exception
(it is a total function of its inputs and the call outcome, every failure
path — exception or empty content list — mapping to `none`), and its
value is either `none` or a record with exactly the fields
`raw_analysis` and `model_used`. -/
theorem c10_result_none_or_two_key_dict (oracle : ServiceOracle)
    (system_prompt conversation_log : String) (v : Bool) :
    (analyze_system_prompt_influence oracle system_prompt conversation_log v).result = none ∨
    ∃ a m, (analyze_system_prompt_influence oracle system_prompt conversation_log v).result =
      some { raw_analysis := a, model_used := m } := by
  unfold analyze_system_prompt_influence
  cases oracle (buildRequest system_prompt conversation_log) with
  | exn e => exact Or.inl rfl
  | ok resp =>
    obtain ⟨cont, m⟩ := resp
    cases cont with
    | nil => exact Or.inl rfl
    | cons blk rest => exact Or.inr ⟨blk.text, m, rfl⟩

/-- C6: if the external call raises any exception, it is caught at the
call site, exactly one user-visible error message containing the
underlying failure text is shown, the function returns `None`, and
exactly one request was issued (no retry, no fallback). -/
theorem c6_exception_caught_and_reported (oracle : ServiceOracle)
    (system_prompt conversation_log e : String) (v : Bool)
    (ho : oracle (buildRequest system_prompt conversation_log) = CallOutcome.exn e) :
    (analyze_system_prompt_influence oracle system_prompt conversation_log v).result = none ∧
    (analyze_system_prompt_influence oracle system_prompt conversation_log v).errors =
      ["Error in analysis: " ++ e] ∧
    (∃ pre post : String, "Error in analysis: " ++ e = pre ++ e ++ post) ∧
    (analyze_system_prompt_influence oracle system_prompt conversation_log v).requests =
      [buildRequest system_prompt conversation_log] := by
  unfold analyze_system_prompt_influence
  rw [ho]
  exact ⟨rfl, rfl, ⟨"Error in analysis: ", "", by simp⟩, rfl⟩

/-- Witness for C6: a service oracle that always raises "boom". -/
theorem c6_witness :
    ((fun _ => CallOutcome.exn "boom") : ServiceOracle) (buildRequest "s" "c") =
        CallOutcome.exn "boom" ∧
    (analyze_system_prompt_influence (fun _ => CallOutcome.exn "boom") "s" "c" true).result =
        none ∧
    (analyze_system_prompt_influence (fun _ => CallOutcome.exn "boom") "s" "c" true).errors =
        ["Error in analysis: boom"] :=
  ⟨rfl,
    (c6_exception_caught_and_reported (fun _ => CallOutcome.exn "boom") "s" "c" "boom" true rfl).1,
    (c6_exception_caught_and_reported (fun _ => CallOutcome.exn "boom") "s" "c" "boom" true rfl).2.1⟩

/-- C2: whenever the external call succeeds, the text shown in the
results text area equals exactly the generated text returned by the
service (the text of the first content block, shown with no
post-processing), and the displayed model name equals exactly the model
identifier the service reports having used. -/
theorem c2_success_displays_exact_text (decode : DecodeOracle) (oracle : ServiceOracle)
    (fb1 fb2 : FileBytes) (sp cl key : String) (env : Option String)
    (resp : ServiceResponse) (blk : ContentBlock) (rest : List ContentBlock)
    (h1 : decode fb1 = Except.ok sp) (h2 : decode fb2 = Except.ok cl)
    (hk : key ≠ "")
    (ho : oracle (buildRequest sp cl) = CallOutcome.ok resp)
    (hc : resp.content = blk :: rest) :
    (main decode oracle (UIState.mk key env (some fb1) (some fb2))
        true).displayed_analysis = some blk.text ∧
    (main decode oracle (UIState.mk key env (some fb1) (some fb2))
        true).displayed_model = some resp.model := by
  obtain ⟨cont, m⟩ := resp
  have hc' : cont = blk :: rest := hc
  subst hc'
  rw [main_call_eq decode oracle fb1 fb2 sp cl key env h1 h2 hk,
    analyze_ok_cons oracle sp cl true blk rest m ho]
  exact ⟨rfl, rfl⟩

/-- Witness for C2: both files decode to "s", the service answers with
one block "ana" and model "m1"; the text area shows "ana" and the model
line shows "m1". -/
theorem c2_witness :
    decodeAll "s" ([] : FileBytes) = Except.ok "s" ∧
    ("k" : String) ≠ "" ∧
    okOracle1 (buildRequest "s" "s") =
      CallOutcome.ok (ServiceResponse.mk [ContentBlock.mk "ana"] "m1") ∧
    (main (decodeAll "s") okOracle1 (UIState.mk "k" none (some []) (some []))
        true).displayed_analysis = some "ana" ∧
    (main (decodeAll "s") okOracle1 (UIState.mk "k" none (some []) (some []))
        true).displayed_model = some "m1" := by
  have h := c2_success_displays_exact_text (decodeAll "s") okOracle1 [] [] "s" "s" "k"
    none (ServiceResponse.mk [ContentBlock.mk "ana"] "m1") (ContentBlock.mk "ana") []
    rfl rfl (by decide) rfl rfl
  exact ⟨rfl, by decide, rfl, h.1, h.2⟩

/-- C3 counterexample: both uploaded files are present but empty, so each
decodes to the empty string; with key "k" and a successful service call,
an analysis result is still produced and displayed — refuting the claim
that no result is produced when a decoded input text is empty. -/
theorem c3_counterexample :
    decodeAll "" ([] : FileBytes) = Except.ok "" ∧
    uiEmptyFiles.system_prompt_file = some [] ∧
    uiEmptyFiles.conversation_log_file = some [] ∧
    (main (decodeAll "") okOracle1 uiEmptyFiles true).displayed_analysis =
      some "ana" :=
  ⟨rfl, rfl, rfl, rfl⟩

/-- C3 (amended): a result is displayed only if the button was clicked,
both files are uploaded and decode successfully, and the key field is
non-empty; the decoded texts themselves are never checked for
non-emptiness. -/
theorem c3_result_requires_uploads_and_key (decode : DecodeOracle)
    (oracle : ServiceOracle) (ui : UIState) (clicked : Bool)
    (h : (main decode oracle ui clicked).displayed_analysis.isSome = true) :
    clicked = true ∧
    (∃ fb1, ui.system_prompt_file = some fb1 ∧ ∃ sp, decode fb1 = Except.ok sp) ∧
    (∃ fb2, ui.conversation_log_file = some fb2 ∧ ∃ cl, decode fb2 = Except.ok cl) ∧
    ui.api_key ≠ "" := by
  obtain ⟨key, env, spf, clf⟩ := ui
  cases clicked with
  | false => simp [main, noOutput] at h
  | true =>
    cases spf with
    | none => simp [main, noOutput] at h
    | some fb1 =>
      cases clf with
      | none => simp [main, noOutput] at h
      | some fb2 =>
        cases hd1 : decode fb1 with
        | error e => simp [main, hd1, noOutput] at h
        | ok sp =>
          cases hd2 : decode fb2 with
          | error e => simp [main, hd1, hd2, noOutput] at h
          | ok cl =>
            by_cases hk : key = ""
            · simp [main, hd1, hd2, hk, noOutput] at h
            · exact ⟨rfl, ⟨fb1, rfl, sp, hd1⟩, ⟨fb2, rfl, cl, hd2⟩, hk⟩

/-- Witness for C3 (amended) at a state that does display a result. -/
theorem c3_witness :
    (main (decodeAll "x") okOracle1 uiEmptyFiles true).displayed_analysis.isSome
      = true ∧
    (true = true ∧
      (∃ fb1, uiEmptyFiles.system_prompt_file = some fb1 ∧
        ∃ sp, decodeAll "x" fb1 = Except.ok sp) ∧
      (∃ fb2, uiEmptyFiles.conversation_log_file = some fb2 ∧
        ∃ cl, decodeAll "x" fb2 = Except.ok cl) ∧
      uiEmptyFiles.api_key ≠ "") :=
  ⟨rfl, c3_result_requires_uploads_and_key (decodeAll "x") okOracle1 uiEmptyFiles
    true rfl⟩

/-- C4 counterexample: the key field is blank while the environment
variable holds "sk-env"; both files are uploaded and decodable and the
service would succeed, yet no network request is issued and the key
warning is shown — refuting the claim that the analyze action proceeds
using the environment-supplied default. -/
theorem c4_counterexample :
    uiBlankKeyEnv.api_key = "" ∧
    uiBlankKeyEnv.env_api_key = some "sk-env" ∧
    (main (decodeAll "x") okOracle1 uiBlankKeyEnv true).requests = [] ∧
    (main (decodeAll "x") okOracle1 uiBlankKeyEnv true).warnings =
      [apiKeyWarning] :=
  ⟨rfl, rfl, rfl, rfl⟩

/-- C4 (amended): when the credential field is blank, the analyze action
issues no network request and displays no result, regardless of any
environment-supplied credential (the key warning is shown when both files
decode); the environment fallback exists only in the analyzer
constructor resolution `resolveApiKey`, which the form path never
exercises with a blank field. -/
theorem c4_blank_field_never_calls (decode : DecodeOracle) (oracle : ServiceOracle)
    (ui : UIState) (clicked : Bool) (hk : ui.api_key = "") :
    (main decode oracle ui clicked).requests = [] ∧
    (main decode oracle ui clicked).displayed_analysis = none ∧
    resolveApiKey (some ui.api_key) ui.env_api_key = ui.env_api_key ∧
    (∀ fb1 fb2 sp cl, clicked = true →
      ui.system_prompt_file = some fb1 → ui.conversation_log_file = some fb2 →
      decode fb1 = Except.ok sp → decode fb2 = Except.ok cl →
      (main decode oracle ui clicked).warnings = [apiKeyWarning]) := by
  obtain ⟨key, env, spf, clf⟩ := ui
  have hk' : key = "" := hk
  subst hk'
  have base :
      (main decode oracle (UIState.mk "" env spf clf) clicked).requests = [] ∧
      (main decode oracle (UIState.mk "" env spf clf) clicked).displayed_analysis
        = none := by
    cases clicked with
    | false => exact ⟨rfl, rfl⟩
    | true =>
      cases spf with
      | none => simp [main, noOutput]
      | some fb1 =>
        cases clf with
        | none => simp [main, noOutput]
        | some fb2 =>
          cases hd1 : decode fb1 with
          | error e => simp [main, hd1, noOutput]
          | ok sp =>
            cases hd2 : decode fb2 with
            | error e => simp [main, hd1, hd2, noOutput]
            | ok cl => simp [main, hd1, hd2, noOutput]
  refine ⟨base.1, base.2, by simp [resolveApiKey], ?_⟩
  intro fb1 fb2 sp cl hct hspf hclf hd1 hd2
  subst hct
  have hspf' : spf = some fb1 := hspf
  have hclf' : clf = some fb2 := hclf
  subst hspf'
  subst hclf'
  simp [main, hd1, hd2, noOutput]

/-- Witness for C4 (amended) at the blank-field, environment-key state. -/
theorem c4_witness :
    uiBlankKeyEnv.api_key = "" ∧
    (main (decodeAll "x") okOracle1 uiBlankKeyEnv true).requests = [] ∧
    (main (decodeAll "x") okOracle1 uiBlankKeyEnv true).displayed_analysis
      = none ∧
    resolveApiKey (some uiBlankKeyEnv.api_key) uiBlankKeyEnv.env_api_key =
      uiBlankKeyEnv.env_api_key :=
  ⟨rfl,
    (c4_blank_field_never_calls (decodeAll "x") okOracle1 uiBlankKeyEnv true rfl).1,
    (c4_blank_field_never_calls (decodeAll "x") okOracle1 uiBlankKeyEnv true rfl).2.1,
    (c4_blank_field_never_calls (decodeAll "x") okOracle1 uiBlankKeyEnv true rfl).2.2.1⟩

/-- C5: if either upload is absent, or UTF-8 decoding of an uploaded file
fails, a user-visible warning or error is reported and the handler aborts
before any network call. -/
theorem c5_missing_or_undecodable_aborts (decode : DecodeOracle)
    (oracle : ServiceOracle) (ui : UIState)
    (h : ui.system_prompt_file = none ∨ ui.conversation_log_file = none ∨
      ∃ fb1 fb2, ui.system_prompt_file = some fb1 ∧
        ui.conversation_log_file = some fb2 ∧
        ((∃ e, decode fb1 = Except.error e) ∨
          ∃ sp e, decode fb1 = Except.ok sp ∧ decode fb2 = Except.error e)) :
    (main decode oracle ui true).requests = [] ∧
    ((main decode oracle ui true).warnings ≠ [] ∨
      (main decode oracle ui true).errors ≠ []) := by
  obtain ⟨key, env, spf, clf⟩ := ui
  rcases h with h | h | ⟨fb1, fb2, hspf, hclf, hd⟩
  · have h' : spf = none := h
    subst h'
    exact ⟨rfl, Or.inl (by simp [main, noOutput, uploadWarning])⟩
  · have h' : clf = none := h
    subst h'
    cases spf with
    | none => exact ⟨rfl, Or.inl (by simp [main, noOutput, uploadWarning])⟩
    | some fb1 => exact ⟨rfl, Or.inl (by simp [main, noOutput, uploadWarning])⟩
  · have hspf' : spf = some fb1 := hspf
    have hclf' : clf = some fb2 := hclf
    subst hspf'
    subst hclf'
    rcases hd with ⟨e, hd1⟩ | ⟨sp, e, hd1, hd2⟩
    · constructor
      · simp [main, hd1, noOutput]
      · exact Or.inr (by simp [main, hd1, noOutput])
    · constructor
      · simp [main, hd1, hd2, noOutput]
      · exact Or.inr (by simp [main, hd1, hd2, noOutput])

/-- Witness for C5: the system-prompt upload is missing. -/
theorem c5_witness :
    uiMissingUpload.system_prompt_file = none ∧
    (main (decodeAll "x") okOracle1 uiMissingUpload true).requests = [] ∧
    ((main (decodeAll "x") okOracle1 uiMissingUpload true).warnings ≠ [] ∨
      (main (decodeAll "x") okOracle1 uiMissingUpload true).errors ≠ []) :=
  ⟨rfl,
    (c5_missing_or_undecodable_aborts (decodeAll "x") okOracle1 uiMissingUpload
      (Or.inl rfl)).1,
    (c5_missing_or_undecodable_aborts (decodeAll "x") okOracle1 uiMissingUpload
      (Or.inl rfl)).2⟩

/-- C8: two clicks with identical inputs issue two independent network
calls — one request each, both equal to the request determined by the
inputs alone (no cached result is reused), and the outcome of the second
click is unchanged by whatever the service did on the first click. -/
theorem c8_two_invocations_no_caching (decode : DecodeOracle)
    (o1 o1' o2 : ServiceOracle) (fb1 fb2 : FileBytes) (sp cl key : String)
    (env : Option String)
    (h1 : decode fb1 = Except.ok sp) (h2 : decode fb2 = Except.ok cl)
    (hk : key ≠ "") :
    (mainTwice decode o1 o2 (UIState.mk key env (some fb1) (some fb2))).1.requests
        = [buildRequest sp cl] ∧
    (mainTwice decode o1 o2 (UIState.mk key env (some fb1) (some fb2))).2.requests
        = [buildRequest sp cl] ∧
    ((mainTwice decode o1 o2 (UIState.mk key env (some fb1) (some fb2))).1.requests ++
      (mainTwice decode o1 o2 (UIState.mk key env (some fb1) (some fb2))).2.requests).length
        = 2 ∧
    (mainTwice decode o1 o2 (UIState.mk key env (some fb1) (some fb2))).2 =
      (mainTwice decode o1' o2 (UIState.mk key env (some fb1) (some fb2))).2 := by
  have q : ∀ o : ServiceOracle,
      (main decode o (UIState.mk key env (some fb1) (some fb2)) true).requests =
        [buildRequest sp cl] := by
    intro o
    rw [main_call_eq decode o fb1 fb2 sp cl key env h1 h2 hk,
      displayStep_requests, analyze_requests_eq]
  refine ⟨q o1, q o2, ?_, rfl⟩
  rw [show (mainTwice decode o1 o2 (UIState.mk key env (some fb1) (some fb2))).1
      = main decode o1 (UIState.mk key env (some fb1) (some fb2)) true from rfl,
    show (mainTwice decode o1 o2 (UIState.mk key env (some fb1) (some fb2))).2
      = main decode o2 (UIState.mk key env (some fb1) (some fb2)) true from rfl,
    q o1, q o2]
  rfl

/-- Witness for C8 at the concrete two-click scenario. -/
theorem c8_witness :
    decodeAll "s" ([] : FileBytes) = Except.ok "s" ∧
    ("k" : String) ≠ "" ∧
    (mainTwice (decodeAll "s") okOracle1 okOracle1
        (UIState.mk "k" none (some []) (some []))).1.requests =
      [buildRequest "s" "s"] ∧
    (mainTwice (decodeAll "s") okOracle1 okOracle1
        (UIState.mk "k" none (some []) (some []))).2.requests =
      [buildRequest "s" "s"] := by
  have h := c8_two_invocations_no_caching (decodeAll "s") okOracle1 okOracle1
    okOracle1 [] [] "s" "s" "k" none rfl rfl (by decide)
  exact ⟨rfl, by decide, h.1, h.2.1⟩

end PromptDebugger
